import Mathlib

/-!
Verification of the series-statistics engine and watchlist persistence of
`app_bolsa_streamlit.py`.

The engine `compute_stats` takes a pandas DataFrame with columns `Date` and
`Close`; we embed it as a Lean function on `List PricePoint`.  Prices are
embedded as rationals (the Python code computes in IEEE doubles; every claim
here is about exact quantities — ratios, guards, presence/absence — that the
double computation mirrors, and the two transcendental results are kept in
exact symbolic form, see `StatsResult`).  A pandas cell that can hold NaN is
embedded as `PF` (`nan` or a finite rational); a dict entry that can hold
Python `None` is embedded with `Option`.
-/

namespace AppBolsa

/-- A calendar date, embedding `pandas.Timestamp` at midnight
(year, month, day). -/
structure Date where
  year : Int
  month : Nat
  day : Nat
deriving DecidableEq, Repr

/-- Gregorian leap-year rule, as used by `datetime`. -/
def isLeap (y : Int) : Bool :=
  (Int.emod y 4 == 0 && Int.emod y 100 != 0) || Int.emod y 400 == 0

/-- Number of days of month `m` in year `y`. -/
def daysInMonth (y : Int) (m : Nat) : Nat :=
  if m = 2 then (if isLeap y then 29 else 28)
  else if m = 4 ∨ m = 6 ∨ m = 9 ∨ m = 11 then 30 else 31

/-- `d - relativedelta(years=1)` from `dateutil`: same month/day one year
earlier, with the day clamped to the length of the target month
(Feb 29 → Feb 28). -/
def Date.minusOneYear (d : Date) : Date :=
  ⟨d.year - 1, d.month, min d.day (daysInMonth (d.year - 1) d.month)⟩

/-- An integer key that orders dates chronologically (for calendar dates the
lexicographic year/month/day order, which is how `pandas.Timestamp`
comparison behaves on whole dates). -/
def Date.serial (d : Date) : Int :=
  d.year * 10000 + (d.month : Int) * 100 + (d.day : Int)

/-- Boolean date comparison `a <= b`, embedding `Timestamp.__ge__` used by the
filters `df['Date'] >= ...`. -/
def Date.leb (a b : Date) : Bool :=
  decide (a.serial ≤ b.serial)

/-- Days since 1970-01-01 of a calendar date (civil-from-days algorithm);
embeds `Timestamp` subtraction followed by `.days`. -/
def Date.toDays (dt : Date) : Int :=
  let y : Int := if dt.month ≤ 2 then dt.year - 1 else dt.year
  let m : Int := dt.month
  let d : Int := dt.day
  let era : Int := Int.ediv y 400
  let yoe : Int := y - era * 400
  let doy : Int := Int.ediv (153 * (m + (if 2 < m then -3 else 9)) + 2) 5 + d - 1
  let doe : Int := yoe * 365 + Int.ediv yoe 4 - Int.ediv yoe 100 + doy
  era * 146097 + doe - 719468

/-- One row of the price DataFrame handed to `compute_stats`: a `Date` and a
`Close` value. -/
structure PricePoint where
  date : Date
  close : ℚ
deriving DecidableEq, Repr

/-- A pandas float cell: NaN or a finite value. -/
inductive PF where
  | nan : PF
  | fin : ℚ → PF
deriving DecidableEq, Repr

/-- The dict returned by `compute_stats`.  A field is `none` where the Python
dict holds `None`.

* `volAnual` stores the SQUARE of the annual volatility
  (`(std * sqrt 252)^2 = var * 252`), which is rational; the volatility
  itself is the real square root of the stored value.
* `cagr` stores the pair `(close_last / close_first, years)`; the CAGR
  itself is `ratio ^ (1/years) - 1`.
Both conventions keep every field exactly representable. -/
structure StatsResult where
  retYTD : Option ℚ
  ret1Y : Option ℚ
  volAnual : Option ℚ
  maxDrawdown : Option PF
  cagr : Option (ℚ × ℚ)
deriving DecidableEq, Repr

/-- Ordering of rows used by `df.sort_values('Date')`. -/
def dateLe (a b : PricePoint) : Prop :=
  a.date.serial ≤ b.date.serial

instance : DecidableRel dateLe :=
  fun a b => inferInstanceAs (Decidable (a.date.serial ≤ b.date.serial))

instance : IsTotal PricePoint dateLe :=
  ⟨fun a b => le_total a.date.serial b.date.serial⟩

instance : IsTrans PricePoint dateLe :=
  ⟨fun _ _ _ hab hbc => le_trans hab hbc⟩

/-- `price_df.sort_values('Date')`: a stable sort by date.  (numpy's sort is
stable on these inputs; rows with equal dates keep their relative order.) -/
def sortByDate (l : List PricePoint) : List PricePoint :=
  List.insertionSort dateLe l

/-- `df['Close'].pct_change()` with the leading NaN dropped: the per-step
simple returns `close_i / close_(i-1) - 1`.  (pandas carries the NaN in
position 0 and skips it in `count`, `std`, `cumprod` and `min`; the embedding
drops it up front instead.) -/
def pctChange (closes : List ℚ) : List ℚ :=
  List.zipWith (fun prev cur => cur / prev - 1) closes closes.tail

/-- Arithmetic mean of a list (pandas `Series.mean` over non-NaN values). -/
def listMean (l : List ℚ) : ℚ :=
  l.sum / (l.length : ℚ)

/-- Sample variance with divisor `n - 1` (square of pandas
`Series.std(ddof=1)` over non-NaN values). -/
def sampleVar (l : List ℚ) : ℚ :=
  ((l.map (fun r => (r - listMean l) ^ 2)).sum) / ((l.length : ℚ) - 1)

/-- `(1 + df['return']).cumprod()` over the non-NaN returns, with running
accumulator `acc`. -/
def cumProds (acc : ℚ) : List ℚ → List ℚ
  | [] => []
  | r :: rs => (acc * (1 + r)) :: cumProds (acc * (1 + r)) rs

/-- Drawdowns `cum_i / max(cum_0..cum_i) - 1` for the tail of the cumulative
series, given the running maximum `m` so far. -/
def ddAux (m : ℚ) : List ℚ → List ℚ
  | [] => []
  | c :: cs => (c / (max m c) - 1) :: ddAux (max m c) cs

/-- `(cum/roll_max - 1).min()`: NaN when there is no non-NaN entry (pandas
`min` of an all-NaN series), otherwise the least drawdown.  The first
drawdown is `c/c - 1` (`= 0` whenever `c ≠ 0`). -/
def ddOfCums : List ℚ → PF
  | [] => PF.nan
  | c :: cs => PF.fin (List.foldl min (c / c - 1) (ddAux c cs))

/-- The per-step returns of a series as `compute_stats` sees them: sort by
date, project `Close`, take `pct_change` (leading NaN dropped). -/
def returnsOf (s : List PricePoint) : List ℚ :=
  pctChange ((sortByDate s).map PricePoint.close)

/-- The window-return computation `compute_stats` performs twice (YTD and
1-year): on a filtered frame, `Close.iloc[-1] / Close.iloc[0] - 1` when the
frame has more than one row (`len(...) > 1`), `None` otherwise. -/
def lastOverFirst (l : List PricePoint) : Option ℚ :=
  match l with
  | q0 :: q1 :: qs =>
    some (((q0 :: q1 :: qs).getLast (List.cons_ne_nil q0 (q1 :: qs))).close / q0.close - 1)
  | _ => none

/-- Embedding of `compute_stats` (src/app_bolsa_streamlit.py, lines 419-463).

The source returns all-`None` when `price_df` is empty; this is the `[]`
branch (the input is empty iff its sort is empty).  Otherwise it sorts by
date, computes per-step returns, and derives the five statistics exactly as
the Python does, including the guards `count() > 1`, `len(df) >= 2`,
`years > 0`, `len(ytd_df) > 1` and `len(one_year_df) > 1`.  `Max Drawdown`
is always set in this branch (possibly to NaN), never to `None`. -/
def compute_stats (price_df : List PricePoint) : StatsResult :=
  match sortByDate price_df with
  | [] => ⟨none, none, none, none, none⟩
  | first :: rest =>
    let df := first :: rest
    let closes := df.map PricePoint.close
    let rets := pctChange closes
    let vol : Option ℚ :=
      if 1 < rets.length then some (sampleVar rets * 252) else none
    let dd : PF := ddOfCums (cumProds 1 rets)
    let lastP := df.getLast (List.cons_ne_nil first rest)
    let cagr : Option (ℚ × ℚ) :=
      if 2 ≤ df.length then
        let years : ℚ := ((lastP.date.toDays - first.date.toDays : Int) : ℚ) / 365.25
        if 0 < years then some (lastP.close / first.close, years) else none
      else none
    let startYtd : Date := ⟨lastP.date.year, 1, 1⟩
    let retYTD : Option ℚ :=
      lastOverFirst (df.filter (fun p => Date.leb startYtd p.date))
    let oneYearAgo : Date := lastP.date.minusOneYear
    let ret1Y : Option ℚ :=
      lastOverFirst (df.filter (fun p => Date.leb oneYearAgo p.date))
    ⟨retYTD, ret1Y, vol, some dd, cagr⟩

/-- `compute_stats` as the caller observes it: the function body contains no
`raise` statement and wraps its only fallible substeps in `try/except`, so
every call returns normally; there is no `InvalidInput` (or any other) error
path.  The `Except` wrapper makes that observable in the embedding. -/
def compute_stats_run (price_df : List PricePoint) : Except String StatsResult :=
  Except.ok (compute_stats price_df)

/-- The call boundary of `compute_stats`: Python passes the caller's frame by
reference, the body immediately takes `price_df.copy()` and the single column
assignment (`df['return'] = ...`) mutates only that copy, and no global state
is read or written; hence the caller's data comes back unchanged alongside
the result. -/
def compute_stats_effect (price_df : List PricePoint) :
    StatsResult × List PricePoint :=
  (compute_stats price_df, price_df)

/-- Embedding of `save_watchlist` (lines 142-147): the content written to
`watchlist.json` is `sorted(list(set(symbols)))` — duplicates removed, then
ascending lexicographic sort.  (The file I/O itself, and the `except` branch
that writes nothing on I/O failure, carry no data content and stay outside
the embedding.) -/
def save_watchlist (symbols : List String) : List String :=
  List.insertionSort (fun a b => a ≤ b) symbols.dedup

/-- The CAGR field as the spec words it (§4.1 step 5): on the date-sorted
series, "let `years = (lastDate - firstDate) in days / 365.25`.  If
`years > 0` and there are at least 2 points,
`cagr = (close_last / close_first) ^ (1/years) - 1`; otherwise absent"
(stored symbolically as the pair `(close_last / close_first, years)`). -/
def spec_cagr (s : List PricePoint) : Option (ℚ × ℚ) :=
  match sortByDate s with
  | [] => none
  | first :: rest =>
    let lastP := (first :: rest).getLast (List.cons_ne_nil first rest)
    let years : ℚ := ((lastP.date.toDays - first.date.toDays : Int) : ℚ) / 365.25
    if 2 ≤ (first :: rest).length ∧ 0 < years then
      some (lastP.close / first.close, years)
    else none

/-- The YTD return as the spec words it (§4.1 step 6): `startOfYear` is
January 1 of the year of the last observation of the (date-sorted) series;
filter to dates `≥ startOfYear`; if the filtered subsequence has at least 2
points, return `close_last_filtered / close_first_filtered - 1`, else
absent.  (There is no external as-of date anywhere.) -/
def spec_retYTD (s : List PricePoint) : Option ℚ :=
  match sortByDate s with
  | [] => none
  | first :: rest =>
    let df := first :: rest
    let lastP := df.getLast (List.cons_ne_nil first rest)
    let startOfYear : Date := ⟨lastP.date.year, 1, 1⟩
    let f := df.filter (fun p => Date.leb startOfYear p.date)
    if h : 2 ≤ f.length then
      some ((f.getLast (fun hnil => by rw [hnil] at h; simp at h)).close /
            (f.head (fun hnil => by rw [hnil] at h; simp at h)).close - 1)
    else none

/-! ### Helper lemmas -/

/-- `lastOverFirst` in guarded form: a value exactly when the frame has at
least two rows. -/
theorem lastOverFirst_eq (l : List PricePoint) :
    lastOverFirst l =
      if h : 2 ≤ l.length then
        some ((l.getLast (fun hnil => by rw [hnil] at h; simp at h)).close /
              (l.head (fun hnil => by rw [hnil] at h; simp at h)).close - 1)
      else none := by
  match l with
  | [] => simp [lastOverFirst]
  | [q0] => simp [lastOverFirst]
  | q0 :: q1 :: qs =>
    have h2 : 2 ≤ (q0 :: q1 :: qs).length := by simp
    rw [lastOverFirst, dif_pos h2]
    simp

/-- The sort step keeps every row (no deduplication happens anywhere). -/
theorem sortByDate_perm (s : List PricePoint) : List.Perm (sortByDate s) s :=
  List.perm_insertionSort dateLe s

/-- Length of the per-step return sequence: one less than the series length. -/
theorem returnsOf_length (s : List PricePoint) :
    (returnsOf s).length = s.length - 1 := by
  have hlen : ((sortByDate s).map PricePoint.close).length = s.length := by
    rw [List.length_map, (sortByDate_perm s).length_eq]
  rw [returnsOf, pctChange, List.length_zipWith, List.length_tail, hlen]
  omega

/-- The sample variance of at least two values is nonnegative. -/
theorem sampleVar_nonneg (l : List ℚ) (h : 2 ≤ l.length) :
    0 ≤ sampleVar l := by
  rw [sampleVar]
  apply div_nonneg
  · apply List.sum_nonneg
    intro x hx
    obtain ⟨r, _, rfl⟩ := List.mem_map.mp hx
    positivity
  · have h2 : (2 : ℚ) ≤ (l.length : ℚ) := by exact_mod_cast h
    linarith

/-! ### Concrete series used by the claims -/

/-- The spec's Scenario A: `[(2024-01-01,100),(2024-01-02,110),(2024-01-03,99)]`. -/
def scenarioA : List PricePoint :=
  [⟨⟨2024, 1, 1⟩, 100⟩, ⟨⟨2024, 1, 2⟩, 110⟩, ⟨⟨2024, 1, 3⟩, 99⟩]

/-- A series with a duplicated row (same date, same close). -/
def dupSeries : List PricePoint :=
  [⟨⟨2024, 3, 1⟩, 100⟩, ⟨⟨2024, 3, 4⟩, 110⟩, ⟨⟨2024, 3, 4⟩, 110⟩, ⟨⟨2024, 3, 6⟩, 121⟩]

/-- `dupSeries` with the duplicate removed. -/
def dedupSeries : List PricePoint :=
  [⟨⟨2024, 3, 1⟩, 100⟩, ⟨⟨2024, 3, 4⟩, 110⟩, ⟨⟨2024, 3, 6⟩, 121⟩]

/-- A constant-price series with a duplicated row. -/
def constDupSeries : List PricePoint :=
  [⟨⟨2024, 5, 1⟩, 5⟩, ⟨⟨2024, 5, 2⟩, 5⟩, ⟨⟨2024, 5, 2⟩, 5⟩, ⟨⟨2024, 5, 3⟩, 5⟩]

/-- `constDupSeries` with the duplicate removed. -/
def constDedupSeries : List PricePoint :=
  [⟨⟨2024, 5, 1⟩, 5⟩, ⟨⟨2024, 5, 2⟩, 5⟩, ⟨⟨2024, 5, 3⟩, 5⟩]

/-! ### Claim theorems -/

/-- Claim C1, counterexample: on the one-point series `[(2025-07-07, 50)]`
(fewer than two points) `compute_stats` does NOT leave every field absent:
the `Max Drawdown` entry is the float NaN (pandas `min` of an all-NaN
series), a sentinel float rather than `None`. -/
theorem c1_counterexample :
    ([⟨⟨2025, 7, 7⟩, (50 : ℚ)⟩] : List PricePoint).length < 2 ∧
    (compute_stats [⟨⟨2025, 7, 7⟩, (50 : ℚ)⟩]).maxDrawdown = some PF.nan ∧
    (compute_stats [⟨⟨2025, 7, 7⟩, (50 : ℚ)⟩]).maxDrawdown ≠ none := by
  with_unfolding_all decide

/-- Claim C2, counterexample: on Scenario A the engine's max drawdown is
`-1/10` (the running maximum of the cumulative-product path `1.10, 0.99` is
`1.10`, and `0.99/1.10 - 1 = -1/10`), not `99/121 - 1` as the claim states. -/
theorem c2_counterexample :
    (compute_stats scenarioA).maxDrawdown = some (PF.fin (-1 / 10)) ∧
    (compute_stats scenarioA).maxDrawdown ≠ some (PF.fin (99 / 121 - 1)) := by
  with_unfolding_all decide

/-- Claim C2, amended: on Scenario A the max drawdown equals
`99/110 - 1 = -0.1` exactly. -/
theorem c2_drawdown_amended :
    (compute_stats scenarioA).maxDrawdown = some (PF.fin (99 / 110 - 1)) := by
  with_unfolding_all decide

/-- Claim C6, counterexample: the series `[(2024-03-05, 4), (2024-03-05, -2)]`
contains a non-positive close, yet the engine does not fail with any error:
it silently returns an ordinary fully-formed result (YTD and 1Y returns
`-3/2`, max drawdown `0`, volatility and CAGR absent). -/
theorem c6_counterexample :
    compute_stats_run [⟨⟨2024, 3, 5⟩, 4⟩, ⟨⟨2024, 3, 5⟩, -2⟩] =
      Except.ok ⟨some (-3 / 2), some (-3 / 2), none, some (PF.fin 0), none⟩ :=
  congrArg Except.ok (by with_unfolding_all decide)

/-- Claim C7: `compute_stats` is a pure, deterministic function of its input:
the call returns the caller's frame unchanged (the body works on
`price_df.copy()` and touches no global state), a second call on that
surviving input produces the identical result, and the call boundary adds
nothing beyond the pure function `compute_stats`. -/
theorem c7_pure_deterministic :
    ∀ s : List PricePoint,
      (compute_stats_effect s).2 = s ∧
      (compute_stats_effect ((compute_stats_effect s).2)).1 =
        (compute_stats_effect s).1 ∧
      (compute_stats_effect s).1 = compute_stats s :=
  fun _ => ⟨rfl, rfl, rfl⟩

set_option maxRecDepth 4000 in
/-- Claim C8, counterexample: permutation invariance fails when two rows
share a date: `[(d,200),(d,100)]` is a permutation of the (already
date-sorted) series `[(d,100),(d,200)]`, but the engine returns a different
result on it (YTD return `-1/2` versus `1`), because the stable sort cannot
reorder rows with equal dates. -/
theorem c8_counterexample :
    List.Perm
      ([⟨⟨2024, 2, 2⟩, 200⟩, ⟨⟨2024, 2, 2⟩, 100⟩] : List PricePoint)
      ([⟨⟨2024, 2, 2⟩, 100⟩, ⟨⟨2024, 2, 2⟩, 200⟩] : List PricePoint) ∧
    compute_stats [⟨⟨2024, 2, 2⟩, 200⟩, ⟨⟨2024, 2, 2⟩, 100⟩] ≠
      compute_stats (sortByDate [⟨⟨2024, 2, 2⟩, 100⟩, ⟨⟨2024, 2, 2⟩, 200⟩]) := by
  with_unfolding_all decide

/-- Claim C9: for every list of symbols, the persisted watchlist is the set
of those symbols with duplicates removed, in ascending sorted order: the
stored list is sorted, duplicate-free, and has exactly the input's members. -/
theorem c9_watchlist_sorted_nodup :
    ∀ symbols : List String,
      List.Sorted (fun a b => a ≤ b) (save_watchlist symbols) ∧
      (save_watchlist symbols).Nodup ∧
      ∀ x : String, x ∈ save_watchlist symbols ↔ x ∈ symbols := by
  intro symbols
  refine ⟨List.sorted_insertionSort _ _, ?_, ?_⟩
  · exact (List.perm_insertionSort _ _).nodup_iff.mpr (List.nodup_dedup symbols)
  · intro x
    simp [save_watchlist, List.mem_dedup]

set_option maxRecDepth 8000 in
/-- Claim C10, counterexample: the claim's final clause fails: on the
constant-price series `constDupSeries`, which contains two points with equal
date and equal close, the duplicate does NOT change the computed sample
volatility relative to the deduplicated series — both are `0`. -/
theorem c10_counterexample :
    (compute_stats constDupSeries).volAnual =
      (compute_stats constDedupSeries).volAnual ∧
    (compute_stats constDupSeries).volAnual = some 0 := by
  with_unfolding_all decide

set_option maxRecDepth 8000 in
/-- Claim C10, amended: `compute_stats` does not deduplicate — the defensive
sort keeps every row of every series — and an adjacent equal-date equal-close
duplicate contributes an extra zero per-step return, which can change the
sample volatility (on `dupSeries` the returns are `[1/10, 0, 1/10]` and the
squared annual volatility `21/25`, while the deduplicated series has returns
`[1/10, 1/10]` and squared annual volatility `0`), though not on every
series (see the counterexample). -/
theorem c10_no_dedup_amended :
    (∀ s : List PricePoint, List.Perm (sortByDate s) s) ∧
    sortByDate dupSeries = dupSeries ∧
    returnsOf dupSeries = [1 / 10, 0, 1 / 10] ∧
    returnsOf dedupSeries = [1 / 10, 1 / 10] ∧
    (compute_stats dupSeries).volAnual = some (21 / 25) ∧
    (compute_stats dedupSeries).volAnual = some 0 ∧
    (21 / 25 : ℚ) ≠ 0 :=
  ⟨sortByDate_perm, by with_unfolding_all decide, by with_unfolding_all decide, by with_unfolding_all decide, by with_unfolding_all decide, by with_unfolding_all decide,
    by with_unfolding_all decide⟩

/-- Claim C4: for every series, the CAGR field of `compute_stats` is exactly
what the spec prescribes: with `years = (lastDate - firstDate) in days
/ 365.25` over the date-sorted series, the value `(close_last / close_first,
years)` — denoting `(close_last/close_first) ^ (1/years) - 1` — when the
series has at least 2 points and `years > 0`, and absent otherwise (in
particular absent, with no failure, when first and last date coincide, and
absent for series with fewer than 2 points). -/
theorem c4_cagr_refines_spec :
    ∀ s : List PricePoint, (compute_stats s).cagr = spec_cagr s := by
  intro s
  unfold compute_stats spec_cagr
  cases h : sortByDate s with
  | nil => rfl
  | cons first rest =>
    simp only
    split_ifs with h1 h2 h3 <;> simp_all
    linarith

/-- Claim C5: for every series, the YTD field of `compute_stats` is exactly
what the spec prescribes: `startOfYear` is January 1 of the year of the last
observation's date (there is no external as-of date), the sorted series is
filtered to dates `≥ startOfYear`, and the field is
`close_last_filtered / close_first_filtered - 1` when the filtered
subsequence has at least 2 points, absent otherwise. -/
theorem c5_retYTD_refines_spec :
    ∀ s : List PricePoint, (compute_stats s).retYTD = spec_retYTD s := by
  intro s
  unfold compute_stats spec_retYTD
  cases h : sortByDate s with
  | nil => rfl
  | cons first rest =>
    simp only [lastOverFirst_eq]

/-- Claim C1, amended: for every series with fewer than two points the engine
does not fail and returns `Ret YTD`, `Ret 1Y`, `Vol anual` and `CAGR` absent
(`None`); `Max Drawdown` is absent exactly for the empty series, while for a
one-point series it is the sentinel float NaN (which the presentation layer
`format_pct` renders as the same placeholder as `None`). -/
theorem c1_short_series_amended (s : List PricePoint) (h : s.length < 2) :
    (compute_stats s).retYTD = none ∧ (compute_stats s).ret1Y = none ∧
    (compute_stats s).volAnual = none ∧ (compute_stats s).cagr = none ∧
    ((compute_stats s).maxDrawdown = none ↔ s = []) ∧
    (s ≠ [] → (compute_stats s).maxDrawdown = some PF.nan) := by
  rcases s with _ | ⟨p, _ | ⟨b, t⟩⟩
  · exact ⟨rfl, rfl, rfl, rfl, by simp [compute_stats, sortByDate], by simp⟩
  · have key : compute_stats [p] = ⟨none, none, none, some PF.nan, none⟩ := by
      have hs : sortByDate [p] = [p] := rfl
      unfold compute_stats
      rw [hs]
      cases hb1 : Date.leb ⟨p.date.year, 1, 1⟩ p.date <;>
        cases hb2 : Date.leb p.date.minusOneYear p.date <;>
          simp [pctChange, cumProds, ddOfCums, lastOverFirst, List.filter,
            hb1, hb2]
    simp [key]
  · simp only [List.length_cons] at h
    omega

/-- Claim C1, witness: the amended statement instantiated at the one-point
series `[(2022-01-01, 3)]`. -/
theorem c1_short_series_witness :
    ([⟨⟨2022, 1, 1⟩, (3 : ℚ)⟩] : List PricePoint).length < 2 ∧
    ((compute_stats [⟨⟨2022, 1, 1⟩, (3 : ℚ)⟩]).retYTD = none ∧
     (compute_stats [⟨⟨2022, 1, 1⟩, (3 : ℚ)⟩]).ret1Y = none ∧
     (compute_stats [⟨⟨2022, 1, 1⟩, (3 : ℚ)⟩]).volAnual = none ∧
     (compute_stats [⟨⟨2022, 1, 1⟩, (3 : ℚ)⟩]).cagr = none ∧
     ((compute_stats [⟨⟨2022, 1, 1⟩, (3 : ℚ)⟩]).maxDrawdown = none ↔
        ([⟨⟨2022, 1, 1⟩, (3 : ℚ)⟩] : List PricePoint) = []) ∧
     (([⟨⟨2022, 1, 1⟩, (3 : ℚ)⟩] : List PricePoint) ≠ [] →
        (compute_stats [⟨⟨2022, 1, 1⟩, (3 : ℚ)⟩]).maxDrawdown = some PF.nan)) :=
  ⟨by decide, c1_short_series_amended [⟨⟨2022, 1, 1⟩, (3 : ℚ)⟩] (by decide)⟩

/-- Claim C3: for every series, the `Vol anual` field is present exactly when
the series has at least 3 points (at least 2 returns), in which case it holds
`sampleVar (returns) * 252`, whose real square root is the sample standard
deviation of the per-step simple returns multiplied by `sqrt 252`. -/
theorem c3_volatility :
    ∀ s : List PricePoint,
      ((compute_stats s).volAnual =
        if 3 ≤ s.length then some (sampleVar (returnsOf s) * 252) else none) ∧
      ∀ v : ℚ, (compute_stats s).volAnual = some v →
        Real.sqrt ((v : ℚ) : ℝ) =
          Real.sqrt ((sampleVar (returnsOf s) : ℚ) : ℝ) * Real.sqrt 252 := by
  intro s
  have hlen3 : (returnsOf s).length = s.length - 1 := returnsOf_length s
  have hstruct : (compute_stats s).volAnual =
      if 3 ≤ s.length then some (sampleVar (returnsOf s) * 252) else none := by
    unfold compute_stats
    cases h : sortByDate s with
    | nil =>
      have hp := sortByDate_perm s
      rw [h] at hp
      have hnil : s = [] := hp.symm.eq_nil
      subst hnil
      simp
    | cons first rest =>
      have hr : returnsOf s = pctChange ((first :: rest).map PricePoint.close) := by
        rw [returnsOf, h]
      have hlen : s.length = rest.length + 1 := by
        have hp := sortByDate_perm s
        rw [h] at hp
        simpa using hp.length_eq.symm
      simp only [← hr]
      have hiff : (1 < (returnsOf s).length) ↔ (3 ≤ s.length) := by omega
      by_cases hc : 3 ≤ s.length
      · rw [if_pos (hiff.mpr hc), if_pos hc]
      · rw [if_neg (fun hlt => hc (hiff.mp hlt)), if_neg hc]
  refine ⟨hstruct, ?_⟩
  intro v hv
  rw [hstruct] at hv
  split_ifs at hv with h3
  · have hv2 : sampleVar (returnsOf s) * 252 = v := Option.some.inj hv
    have hnn : (0 : ℚ) ≤ sampleVar (returnsOf s) :=
      sampleVar_nonneg _ (by omega)
    have hnnR : (0 : ℝ) ≤ ((sampleVar (returnsOf s) : ℚ) : ℝ) := by
      exact_mod_cast hnn
    rw [← hv2]
    push_cast
    rw [Real.sqrt_mul hnnR]

/-- A three-point series with doubling closes: returns `[1, 1]`, sample
variance `0`. -/
def w3Series : List PricePoint :=
  [⟨⟨2023, 5, 1⟩, 1⟩, ⟨⟨2023, 5, 2⟩, 2⟩, ⟨⟨2023, 5, 3⟩, 4⟩]

set_option maxRecDepth 8000 in
/-- Claim C3, witness: the volatility characterization instantiated at the
three-point series `w3Series`, whose squared annual volatility is `0`. -/
theorem c3_volatility_witness :
    (compute_stats w3Series).volAnual = some 0 ∧
    Real.sqrt (((0 : ℚ) : ℚ) : ℝ) =
      Real.sqrt ((sampleVar (returnsOf w3Series) : ℚ) : ℝ) * Real.sqrt 252 :=
  ⟨by with_unfolding_all decide,
    (c3_volatility w3Series).2 0 (by with_unfolding_all decide)⟩

set_option maxRecDepth 8000 in
/-- Claim C6, amended: the engine applies the propagate policy, not the
reject policy: no input is ever rejected with an `InvalidInput` error —
every call returns normally, there is no error path at all — and the
statistics of a series with a non-positive close are silently computed by
the same arithmetic: the same-date two-point series
`[(2024-03-05, 1), (2024-03-05, -5)]` yields YTD and 1-year returns `-6`,
max drawdown `0`, volatility and CAGR absent. -/
theorem c6_no_invalid_input_amended :
    (∀ s : List PricePoint, compute_stats_run s = Except.ok (compute_stats s)) ∧
    compute_stats_run [⟨⟨2024, 3, 5⟩, 1⟩, ⟨⟨2024, 3, 5⟩, -5⟩] =
      Except.ok ⟨some (-6), some (-6), none, some (PF.fin 0), none⟩ :=
  ⟨fun _ => rfl, congrArg Except.ok (by with_unfolding_all decide)⟩

/-- Strict version of the sort order: strictly earlier date. -/
def dateLt (a b : PricePoint) : Prop :=
  a.date.serial < b.date.serial

instance : IsAntisymm PricePoint dateLt :=
  ⟨fun _ _ h1 h2 => absurd (lt_trans h1 h2) (lt_irrefl _)⟩

/-- A `dateLe`-sorted list whose dates are pairwise distinct is strictly
sorted. -/
theorem sorted_dateLt_of_sorted_dateLe (l : List PricePoint)
    (h1 : List.Sorted dateLe l)
    (h2 : l.Pairwise (fun a b => a.date.serial ≠ b.date.serial)) :
    List.Sorted dateLt l := by
  induction l with
  | nil => exact List.sorted_nil
  | cons a t ih =>
    rw [List.sorted_cons] at h1 ⊢
    rw [List.pairwise_cons] at h2
    exact ⟨fun b hb => lt_of_le_of_ne (h1.1 b hb) (h2.1 b hb),
      ih h1.2 h2.2⟩

/-- Two series with the same sort have the same statistics (`compute_stats`
looks at its input only through `sortByDate`). -/
theorem compute_stats_congr (a b : List PricePoint)
    (h : sortByDate a = sortByDate b) : compute_stats a = compute_stats b := by
  unfold compute_stats
  rw [h]

/-- Claim C8, amended: `compute_stats` sorts defensively rather than
rejecting unsorted input, and on series whose dates are pairwise distinct
the result is permutation-invariant: every permutation of such a series
yields the same result as the date-sorted series.  (With duplicated dates
the relative order of the tied rows can change the result — see the
counterexample.) -/
theorem c8_sort_defensive_amended (s t : List PricePoint)
    (hd : s.Pairwise (fun a b => a.date.serial ≠ b.date.serial))
    (hp : List.Perm t s) :
    compute_stats t = compute_stats (sortByDate s) := by
  have p1 : List.Perm (sortByDate t) t := sortByDate_perm t
  have p2 : List.Perm (sortByDate (sortByDate s)) (sortByDate s) :=
    sortByDate_perm (sortByDate s)
  have p3 : List.Perm (sortByDate s) s := sortByDate_perm s
  have pall : List.Perm (sortByDate t) (sortByDate (sortByDate s)) :=
    (p1.trans hp).trans ((p2.trans p3).symm)
  have hd1 : (sortByDate t).Pairwise
      (fun a b => a.date.serial ≠ b.date.serial) :=
    (List.Perm.pairwise_iff (fun h => Ne.symm h) (p1.trans hp)).mpr hd
  have hd2 : (sortByDate (sortByDate s)).Pairwise
      (fun a b => a.date.serial ≠ b.date.serial) :=
    (List.Perm.pairwise_iff (fun h => Ne.symm h) (p2.trans p3)).mpr hd
  have hs1 : List.Sorted dateLt (sortByDate t) :=
    sorted_dateLt_of_sorted_dateLe _ (List.sorted_insertionSort dateLe t) hd1
  have hs2 : List.Sorted dateLt (sortByDate (sortByDate s)) :=
    sorted_dateLt_of_sorted_dateLe _
      (List.sorted_insertionSort dateLe (sortByDate s)) hd2
  exact compute_stats_congr t (sortByDate s)
    (List.eq_of_perm_of_sorted pall hs1 hs2)

set_option maxRecDepth 4000 in
/-- Claim C8, witness: the amended statement instantiated at the two-point
distinct-date series `[(2024-01-01,100),(2024-01-02,110)]` and its reversal. -/
theorem c8_sort_defensive_witness :
    ([⟨⟨2024, 1, 1⟩, 100⟩, ⟨⟨2024, 1, 2⟩, 110⟩] : List PricePoint).Pairwise
      (fun a b => a.date.serial ≠ b.date.serial) ∧
    List.Perm
      ([⟨⟨2024, 1, 2⟩, 110⟩, ⟨⟨2024, 1, 1⟩, 100⟩] : List PricePoint)
      ([⟨⟨2024, 1, 1⟩, 100⟩, ⟨⟨2024, 1, 2⟩, 110⟩] : List PricePoint) ∧
    compute_stats [⟨⟨2024, 1, 2⟩, 110⟩, ⟨⟨2024, 1, 1⟩, 100⟩] =
      compute_stats
        (sortByDate [⟨⟨2024, 1, 1⟩, 100⟩, ⟨⟨2024, 1, 2⟩, 110⟩]) :=
  ⟨by decide, by decide,
    c8_sort_defensive_amended
      [⟨⟨2024, 1, 1⟩, 100⟩, ⟨⟨2024, 1, 2⟩, 110⟩]
      [⟨⟨2024, 1, 2⟩, 110⟩, ⟨⟨2024, 1, 1⟩, 100⟩]
      (by decide) (by decide)⟩

end AppBolsa
